import Mathlib

/-!
Verification of the instruction-execution core of a small 6502-style CPU
emulator (files `src/cpu.rs` and `src/cpu/instructions.rs`).

The Rust code is shallowly embedded:
* machine integers (`u8`, `u16`) become `Nat` with explicit `% 256` /
  `% 65536` where the Rust operation wraps;
* the flat memory array `memory: [u8; 0xFFFF]` becomes a total map
  `Nat → Nat` together with the explicit bound `MEMORY_LEN = 0xFFFF`
  (the Rust array's length); an index `≥ MEMORY_LEN` is the Rust
  out-of-bounds panic;
* fallible operations (array indexing, `Option::unwrap`, `todo!()`,
  debug-build `u16` addition overflow, the explicit `panic!`) return
  `Except Panic _`, with one `Panic` constructor per panic site carrying
  exactly the data the panic message carries;
* the `bitflags`-generated status register operations are translated
  including the `bitflags` semantics of `!flag` (complement truncates to
  the declared flag bits `0b11001111`), `|` and `&` (raw bit ops).

Execution (`run`) is modelled with explicit fuel; one loop iteration is
`step`.
-/

set_option maxHeartbeats 2000000
set_option maxRecDepth 16384

namespace Nes

/-- Addressing modes, from `enum AddressingMode` in `src/cpu.rs`. -/
inductive AddressingMode
  | Implicit
  | Accumulator
  | Immediate
  | ZeroPage
  | ZeroPageX
  | ZeroPageY
  | Absolute
  | AbsoluteX
  | AbsoluteY
  | Relative
  | Indirect
  | IndirectX
  | IndirectY
deriving DecidableEq

/-- Instruction descriptor, from `struct Instruction` in
`src/cpu/instructions.rs`. -/
structure Instruction where
  opcode : Nat
  mnemonic : String
  bytes : Nat
  cycles : Nat
  addressing_mode : AddressingMode
deriving DecidableEq

/-- The `// Access` section of `CPU_INSTRUCTIONS`
(`src/cpu/instructions.rs`). -/
def accessInstructions : List Instruction := [
  ⟨0xA9, "LDA", 2, 2, .Immediate⟩,
  ⟨0xA5, "LDA", 2, 3, .ZeroPage⟩,
  ⟨0xB5, "LDA", 2, 4, .ZeroPageX⟩,
  ⟨0xAD, "LDA", 3, 4, .Absolute⟩,
  ⟨0xBD, "LDA", 3, 4, .AbsoluteX⟩,
  ⟨0xB9, "LDA", 3, 4, .AbsoluteY⟩,
  ⟨0xA1, "LDA", 2, 6, .IndirectX⟩,
  ⟨0xB1, "LDA", 2, 5, .IndirectY⟩,
  ⟨0x85, "STA", 2, 3, .ZeroPage⟩,
  ⟨0x95, "STA", 2, 4, .ZeroPageX⟩,
  ⟨0x8D, "STA", 3, 4, .Absolute⟩,
  ⟨0x9D, "STA", 3, 5, .AbsoluteX⟩,
  ⟨0x99, "STA", 3, 5, .AbsoluteY⟩,
  ⟨0x81, "STA", 2, 6, .IndirectX⟩,
  ⟨0x91, "STA", 2, 6, .IndirectY⟩,
  ⟨0xA2, "LDX", 2, 2, .Immediate⟩,
  ⟨0xA6, "LDX", 2, 3, .ZeroPage⟩,
  ⟨0xB6, "LDX", 2, 4, .ZeroPageY⟩,
  ⟨0xAE, "LDX", 3, 4, .Absolute⟩,
  ⟨0xBE, "LDX", 3, 4, .AbsoluteY⟩,
  ⟨0x86, "STX", 2, 3, .ZeroPage⟩,
  ⟨0x96, "STX", 2, 4, .ZeroPageY⟩,
  ⟨0x8E, "STX", 3, 4, .Absolute⟩,
  ⟨0xA0, "LDY", 2, 2, .Immediate⟩,
  ⟨0xA4, "LDY", 2, 3, .ZeroPage⟩,
  ⟨0xB4, "LDY", 2, 4, .ZeroPageX⟩,
  ⟨0xAC, "LDY", 3, 4, .Absolute⟩,
  ⟨0xBC, "LDY", 3, 4, .AbsoluteX⟩,
  ⟨0x84, "STY", 2, 3, .ZeroPage⟩,
  ⟨0x94, "STY", 2, 4, .ZeroPageX⟩,
  ⟨0x8C, "STY", 3, 4, .Absolute⟩
]

/-- The `// Transfer` section of `CPU_INSTRUCTIONS`. -/
def transferInstructions : List Instruction := [
  ⟨0xAA, "TAX", 1, 2, .Implicit⟩,
  ⟨0x8A, "TXA", 1, 2, .Implicit⟩,
  ⟨0xA8, "TAY", 1, 2, .Implicit⟩,
  ⟨0x98, "TYA", 1, 2, .Implicit⟩
]

/-- The `// Arithmetic` section of `CPU_INSTRUCTIONS`. -/
def arithmeticInstructions : List Instruction := [
  ⟨0x69, "ADC", 2, 2, .Immediate⟩,
  ⟨0x65, "ADC", 2, 3, .ZeroPage⟩,
  ⟨0x75, "ADC", 2, 4, .ZeroPageX⟩,
  ⟨0x6D, "ADC", 3, 4, .Absolute⟩,
  ⟨0x7D, "ADC", 3, 4, .AbsoluteX⟩,
  ⟨0x79, "ADC", 3, 4, .AbsoluteY⟩,
  ⟨0x61, "ADC", 2, 6, .IndirectX⟩,
  ⟨0x71, "ADC", 2, 5, .IndirectY⟩,
  ⟨0xE9, "SBC", 2, 2, .Immediate⟩,
  ⟨0xE5, "SBC", 2, 3, .ZeroPage⟩,
  ⟨0xF5, "SBC", 2, 4, .ZeroPageX⟩,
  ⟨0xED, "SBC", 3, 4, .Absolute⟩,
  ⟨0xFD, "SBC", 3, 4, .AbsoluteX⟩,
  ⟨0xF9, "SBC", 3, 4, .AbsoluteY⟩,
  ⟨0xE1, "SBC", 2, 6, .IndirectX⟩,
  ⟨0xF1, "SBC", 2, 5, .IndirectY⟩,
  ⟨0xE6, "INC", 2, 5, .ZeroPage⟩,
  ⟨0xF6, "INC", 2, 6, .ZeroPageX⟩,
  ⟨0xEE, "INC", 3, 6, .Absolute⟩,
  ⟨0xFE, "INC", 3, 7, .AbsoluteX⟩,
  ⟨0xC6, "DEC", 2, 5, .ZeroPage⟩,
  ⟨0xD6, "DEC", 2, 6, .ZeroPageX⟩,
  ⟨0xCE, "DEC", 3, 6, .Absolute⟩,
  ⟨0xDE, "DEC", 3, 7, .AbsoluteX⟩,
  ⟨0xCA, "DEX", 1, 2, .Implicit⟩,
  ⟨0xE8, "INX", 1, 2, .Implicit⟩,
  ⟨0xC8, "INY", 1, 2, .Implicit⟩,
  ⟨0x88, "DEY", 1, 2, .Implicit⟩
]

/-- The `// Shift` section of `CPU_INSTRUCTIONS`. -/
def shiftInstructions : List Instruction := [
  ⟨0x0A, "ASL", 1, 2, .Accumulator⟩,
  ⟨0x06, "ASL", 2, 5, .ZeroPage⟩,
  ⟨0x16, "ASL", 2, 6, .ZeroPageX⟩,
  ⟨0x0E, "ASL", 3, 6, .Absolute⟩,
  ⟨0x1E, "ASL", 3, 7, .AbsoluteX⟩,
  ⟨0x4A, "LSR", 1, 2, .Accumulator⟩,
  ⟨0x46, "LSR", 2, 5, .ZeroPage⟩,
  ⟨0x56, "LSR", 2, 6, .ZeroPageX⟩,
  ⟨0x4E, "LSR", 3, 6, .Absolute⟩,
  ⟨0x5E, "LSR", 3, 7, .AbsoluteX⟩,
  ⟨0x2A, "ROL", 1, 2, .Accumulator⟩,
  ⟨0x26, "ROL", 2, 5, .ZeroPage⟩,
  ⟨0x36, "ROL", 2, 6, .ZeroPageX⟩,
  ⟨0x2E, "ROL", 3, 6, .Absolute⟩,
  ⟨0x3E, "ROL", 3, 7, .AbsoluteX⟩,
  ⟨0x6A, "ROR", 1, 2, .Accumulator⟩,
  ⟨0x66, "ROR", 2, 5, .ZeroPage⟩,
  ⟨0x76, "ROR", 2, 6, .ZeroPageX⟩,
  ⟨0x6E, "ROR", 3, 6, .Absolute⟩,
  ⟨0x7E, "ROR", 3, 7, .AbsoluteX⟩
]

/-- The `// Bitwise` section of `CPU_INSTRUCTIONS`.  Note that the
eight EOR opcodes are present here. -/
def bitwiseInstructions : List Instruction := [
  ⟨0x29, "AND", 2, 2, .Immediate⟩,
  ⟨0x25, "AND", 2, 3, .ZeroPage⟩,
  ⟨0x35, "AND", 2, 4, .ZeroPageX⟩,
  ⟨0x2D, "AND", 3, 4, .Absolute⟩,
  ⟨0x3D, "AND", 3, 4, .AbsoluteX⟩,
  ⟨0x39, "AND", 3, 4, .AbsoluteY⟩,
  ⟨0x21, "AND", 2, 6, .IndirectX⟩,
  ⟨0x31, "AND", 2, 5, .IndirectY⟩,
  ⟨0x09, "ORA", 2, 2, .Immediate⟩,
  ⟨0x05, "ORA", 2, 3, .ZeroPage⟩,
  ⟨0x15, "ORA", 2, 4, .ZeroPageX⟩,
  ⟨0x0D, "ORA", 3, 4, .Absolute⟩,
  ⟨0x1D, "ORA", 3, 4, .AbsoluteX⟩,
  ⟨0x19, "ORA", 3, 4, .AbsoluteY⟩,
  ⟨0x01, "ORA", 2, 6, .IndirectX⟩,
  ⟨0x11, "ORA", 2, 5, .IndirectY⟩,
  ⟨0x49, "EOR", 2, 2, .Immediate⟩,
  ⟨0x45, "EOR", 2, 3, .ZeroPage⟩,
  ⟨0x55, "EOR", 2, 4, .ZeroPageX⟩,
  ⟨0x4D, "EOR", 3, 4, .Absolute⟩,
  ⟨0x5D, "EOR", 3, 4, .AbsoluteX⟩,
  ⟨0x59, "EOR", 3, 4, .AbsoluteY⟩,
  ⟨0x41, "EOR", 2, 6, .IndirectX⟩,
  ⟨0x51, "EOR", 2, 5, .IndirectY⟩
]

/-- The `// Jump` section of `CPU_INSTRUCTIONS`. -/
def jumpInstructions : List Instruction := [
  ⟨0x00, "BRK", 1, 7, .Implicit⟩
]

/-- The full opcode table `CPU_INSTRUCTIONS` from
`src/cpu/instructions.rs`: the concatenation, in source order, of its
commented sections. -/
def CPU_INSTRUCTIONS : List Instruction :=
  accessInstructions ++ transferInstructions ++ arithmeticInstructions ++
  shiftInstructions ++ bitwiseInstructions ++ jumpInstructions

/-- Lookup in `INSTRUCTION_MAP`.  The Rust `HashMap` is built by
inserting every entry of `CPU_INSTRUCTIONS`; since the opcodes are
pairwise distinct (`cpu_instructions_opcodes_nodup` below) the map sends
an opcode to the unique entry carrying it, which is what `List.find?`
computes. -/
def instructionMapGet (opcode : Nat) : Option Instruction :=
  CPU_INSTRUCTIONS.find? (fun i => i.opcode == opcode)

/-- One constructor per panic site of the Rust core.  Each constructor
carries exactly the data the corresponding panic message reports. -/
inductive Panic
  /-- Array indexing `self.memory[addr]` with `addr` out of bounds:
  the message reports the index. -/
  | indexOutOfBounds (index : Nat)
  /-- `copy_from_slice` on a slice range extending past the array end
  (in `load`). -/
  | sliceOutOfBounds
  /-- `Option::unwrap()` on `None` — the message carries no data
  (this is `INSTRUCTION_MAP.get(&opcode).unwrap()` in `run`). -/
  | unwrapNone
  /-- Debug-build overflow of a `u16` addition. -/
  | u16AddOverflow
  /-- `todo!()` in `get_address` for `Implicit` / `Accumulator`. -/
  | todoUnimplemented
  /-- The explicit catch-all `panic!("opcode not recognised")` in the
  dispatch match of `run`; the message reports the opcode (and only
  the opcode). -/
  | unrecognisedOpcode (opcode : Nat)
deriving DecidableEq

/-- Length of the Rust memory array `memory: [u8; 0xFFFF]`.  Note: this
is 65535, not 65536. -/
def MEMORY_LEN : Nat := 0xFFFF

/-- The defined bits of `StatusFlags`:
Carry 0x01, Zero 0x02, InterruptDisable 0x04, Decimal 0x08,
Overflow 0x40, Negative 0x80. -/
def STATUS_ALL_BITS : Nat := 0b11001111

/-- The `bitflags` complement `!mask`: bitwise complement truncated to
the declared flag bits. -/
def flag_complement (mask : Nat) : Nat := STATUS_ALL_BITS &&& (0xFF ^^^ mask)

/-- CPU state, from `struct Cpu`.  `memory` is the contents of the Rust
array as a total map; only indices `< MEMORY_LEN` exist in the array,
which the memory operations below enforce. -/
structure Cpu where
  a : Nat
  x : Nat
  y : Nat
  status : Nat
  sp : Nat
  pc : Nat
  memory : Nat → Nat

/-- `Cpu::new()`. -/
def Cpu.new : Cpu :=
  { a := 0, x := 0, y := 0, status := 0b00100100, sp := 0, pc := 0,
    memory := fun _ => 0 }

/-- `mem_read`: array indexing panics at or above the array length. -/
def mem_read (cpu : Cpu) (addr : Nat) : Except Panic Nat :=
  if addr < MEMORY_LEN then .ok (cpu.memory addr)
  else .error (.indexOutOfBounds addr)

/-- `mem_write`. -/
def mem_write (cpu : Cpu) (addr data : Nat) : Except Panic Cpu :=
  if addr < MEMORY_LEN then
    .ok { cpu with memory := fun i => if i = addr then data else cpu.memory i }
  else .error (.indexOutOfBounds addr)

/-- `mem_read_u16`: little-endian; `addr + 1` is a `u16` addition
(debug-build overflow panic). -/
def mem_read_u16 (cpu : Cpu) (addr : Nat) : Except Panic Nat := do
  let lo ← mem_read cpu addr
  if addr + 1 ≥ 0x10000 then .error .u16AddOverflow else
  let hi ← mem_read cpu (addr + 1)
  .ok ((hi <<< 8) ||| lo)

/-- `mem_write_u16`. -/
def mem_write_u16 (cpu : Cpu) (addr data : Nat) : Except Panic Cpu := do
  let hi := data >>> 8
  let lo := data &&& 0xFF
  let cpu ← mem_write cpu addr lo
  if addr + 1 ≥ 0x10000 then .error .u16AddOverflow else
  mem_write cpu (addr + 1) hi

/-- `get_carry_flag`: `(status & Carry).bits()`. -/
def get_carry_flag (cpu : Cpu) : Nat := cpu.status &&& 0x01

/-- `get_zero_flag`: `(status & Zero).bits() >> 1`. -/
def get_zero_flag (cpu : Cpu) : Nat := (cpu.status &&& 0x02) >>> 1

/-- `get_overflow_flag`: `(status & Overflow).bits() >> 6`. -/
def get_overflow_flag (cpu : Cpu) : Nat := (cpu.status &&& 0x40) >>> 6

/-- `get_negative_flag`: `(status & Negative).bits() >> 7`. -/
def get_negative_flag (cpu : Cpu) : Nat := (cpu.status &&& 0x80) >>> 7

/-- Status-register effect of `update_zero_flag`.  Clearing uses the
`bitflags` complement `!Zero` which also masks away the two undefined
bits 4 and 5. -/
def update_zero_flag_s (s result : Nat) : Nat :=
  if result = 0 then s ||| 0x02 else s &&& flag_complement 0x02

/-- Status-register effect of `update_negative_flag`. -/
def update_negative_flag_s (s result : Nat) : Nat :=
  if result &&& 0x80 ≠ 0 then s ||| 0x80 else s &&& flag_complement 0x80

/-- Status-register effect of `update_carry_flag`. -/
def update_carry_flag_s (s value : Nat) : Nat :=
  if value ≠ 0 then s ||| 0x01 else s &&& flag_complement 0x01

/-- Status-register effect of `update_overflow_flag`. -/
def update_overflow_flag_s (s value : Nat) : Nat :=
  if value ≠ 0 then s ||| 0x40 else s &&& flag_complement 0x40

/-- `update_zero_flag`. -/
def update_zero_flag (cpu : Cpu) (result : Nat) : Cpu :=
  { cpu with status := update_zero_flag_s cpu.status result }

/-- `update_negative_flag`. -/
def update_negative_flag (cpu : Cpu) (result : Nat) : Cpu :=
  { cpu with status := update_negative_flag_s cpu.status result }

/-- `update_carry_flag`. -/
def update_carry_flag (cpu : Cpu) (value : Nat) : Cpu :=
  { cpu with status := update_carry_flag_s cpu.status value }

/-- `update_overflow_flag`. -/
def update_overflow_flag (cpu : Cpu) (value : Nat) : Cpu :=
  { cpu with status := update_overflow_flag_s cpu.status value }

/-- `update_zero_and_negative_flags`: zero first, then negative. -/
def update_zero_and_negative_flags (cpu : Cpu) (result : Nat) : Cpu :=
  update_negative_flag (update_zero_flag cpu result) result

/-- `u8::wrapping_add`. -/
def wrapping_add8 (a b : Nat) : Nat := (a + b) % 256

/-- `u8::wrapping_sub`. -/
def wrapping_sub8 (a b : Nat) : Nat := (a + (256 - b % 256)) % 256

/-- `u16::wrapping_add`. -/
def wrapping_add16 (a b : Nat) : Nat := (a + b) % 65536

/-- `u8` left shift by one (the high bit is discarded). -/
def shl1_u8 (v : Nat) : Nat := (v <<< 1) % 256

/-- `u8` bitwise complement `!v`. -/
def not_u8 (v : Nat) : Nat := v ^^^ 0xFF

/-- `get_address`, the addressing-mode resolver.  `Implicit` and
`Accumulator` hit `todo!()`.  `Relative` performs a plain (non-wrapping)
`u16` addition `self.pc + offset`, which panics on overflow in a debug
build; the other index additions use `wrapping_add`. -/
def get_address (cpu : Cpu) (mode : AddressingMode) : Except Panic Nat :=
  match mode with
  | .Implicit => .error .todoUnimplemented
  | .Accumulator => .error .todoUnimplemented
  | .Immediate => .ok cpu.pc
  | .ZeroPage => mem_read cpu cpu.pc
  | .ZeroPageX => do
      let arg ← mem_read cpu cpu.pc
      .ok (wrapping_add8 arg cpu.x)
  | .ZeroPageY => do
      let arg ← mem_read cpu cpu.pc
      .ok (wrapping_add8 arg cpu.y)
  | .Absolute => mem_read_u16 cpu cpu.pc
  | .AbsoluteX => do
      let arg ← mem_read_u16 cpu cpu.pc
      .ok (wrapping_add16 arg cpu.x)
  | .AbsoluteY => do
      let arg ← mem_read_u16 cpu cpu.pc
      .ok (wrapping_add16 arg cpu.y)
  | .Relative => do
      let offset ← mem_read cpu cpu.pc
      if cpu.pc + offset ≥ 0x10000 then .error .u16AddOverflow
      else .ok (cpu.pc + offset)
  | .Indirect => mem_read_u16 cpu cpu.pc
  | .IndirectX => do
      let base ← mem_read cpu cpu.pc
      let addr := wrapping_add8 base cpu.x
      let lo ← mem_read cpu addr
      let hi ← mem_read cpu (wrapping_add8 addr 1)
      .ok ((hi <<< 8) ||| lo)
  | .IndirectY => do
      let addr ← mem_read cpu cpu.pc
      let lo ← mem_read cpu addr
      let hi ← mem_read cpu (wrapping_add8 addr 1)
      .ok (wrapping_add16 ((hi <<< 8) ||| lo) cpu.y)

/-- `lda`. -/
def lda (cpu : Cpu) (mode : AddressingMode) : Except Panic Cpu := do
  let addr ← get_address cpu mode
  let value ← mem_read cpu addr
  .ok (update_zero_and_negative_flags { cpu with a := value } value)

/-- `sta`. -/
def sta (cpu : Cpu) (mode : AddressingMode) : Except Panic Cpu := do
  let addr ← get_address cpu mode
  mem_write cpu addr cpu.a

/-- `ldx`. -/
def ldx (cpu : Cpu) (mode : AddressingMode) : Except Panic Cpu := do
  let addr ← get_address cpu mode
  let value ← mem_read cpu addr
  .ok (update_zero_and_negative_flags { cpu with x := value } value)

/-- `stx`. -/
def stx (cpu : Cpu) (mode : AddressingMode) : Except Panic Cpu := do
  let addr ← get_address cpu mode
  mem_write cpu addr cpu.x

/-- `ldy`. -/
def ldy (cpu : Cpu) (mode : AddressingMode) : Except Panic Cpu := do
  let addr ← get_address cpu mode
  let value ← mem_read cpu addr
  .ok (update_zero_and_negative_flags { cpu with y := value } value)

/-- `sty`. -/
def sty (cpu : Cpu) (mode : AddressingMode) : Except Panic Cpu := do
  let addr ← get_address cpu mode
  mem_write cpu addr cpu.y

/-- `tax`. -/
def tax (cpu : Cpu) : Cpu :=
  update_zero_and_negative_flags { cpu with x := cpu.a } cpu.a

/-- `txa`. -/
def txa (cpu : Cpu) : Cpu :=
  update_zero_and_negative_flags { cpu with a := cpu.x } cpu.x

/-- `tay`. -/
def tay (cpu : Cpu) : Cpu :=
  update_zero_and_negative_flags { cpu with y := cpu.a } cpu.a

/-- `tya`. -/
def tya (cpu : Cpu) : Cpu :=
  update_zero_and_negative_flags { cpu with a := cpu.y } cpu.y

/-- `add_to_accumulator`: two chained `overflowing_add`s, the classic
two's-complement overflow test on the old accumulator, then
overflow / carry / zero-and-negative flag updates in that order. -/
def add_to_accumulator (cpu : Cpu) (value : Nat) : Cpu :=
  let sum1 := cpu.a + value
  let res1 := sum1 % 256
  let sum2 := res1 + get_carry_flag cpu
  let result := sum2 % 256
  let overflow : Prop := 256 ≤ sum1 ∨ 256 ≤ sum2
  let overflow_flag_value := (result ^^^ cpu.a) &&& (result ^^^ value) &&& 0x80
  let cpu1 := { cpu with a := result }
  let cpu2 := update_overflow_flag cpu1 overflow_flag_value
  let cpu3 := update_carry_flag cpu2 (if overflow then 1 else 0)
  update_zero_and_negative_flags cpu3 cpu3.a

/-- `adc`. -/
def adc (cpu : Cpu) (mode : AddressingMode) : Except Panic Cpu := do
  let addr ← get_address cpu mode
  let value ← mem_read cpu addr
  .ok (add_to_accumulator cpu value)

/-- `sbc`: addition of the one's complement of the operand. -/
def sbc (cpu : Cpu) (mode : AddressingMode) : Except Panic Cpu := do
  let addr ← get_address cpu mode
  let value ← mem_read cpu addr
  .ok (add_to_accumulator cpu (not_u8 value))

/-- `inc`. -/
def inc (cpu : Cpu) (mode : AddressingMode) : Except Panic Cpu := do
  let addr ← get_address cpu mode
  let value ← mem_read cpu addr
  let result := wrapping_add8 value 1
  let cpu ← mem_write cpu addr result
  .ok (update_zero_and_negative_flags cpu result)

/-- `dec`. -/
def dec (cpu : Cpu) (mode : AddressingMode) : Except Panic Cpu := do
  let addr ← get_address cpu mode
  let value ← mem_read cpu addr
  let result := wrapping_sub8 value 1
  let cpu ← mem_write cpu addr result
  .ok (update_zero_and_negative_flags cpu result)

/-- `dex`. -/
def dex (cpu : Cpu) : Cpu :=
  let x := wrapping_sub8 cpu.x 1
  update_zero_and_negative_flags { cpu with x := x } x

/-- `inx`. -/
def inx (cpu : Cpu) : Cpu :=
  let x := wrapping_add8 cpu.x 1
  update_zero_and_negative_flags { cpu with x := x } x

/-- `iny`. -/
def iny (cpu : Cpu) : Cpu :=
  let y := wrapping_add8 cpu.y 1
  update_zero_and_negative_flags { cpu with y := y } y

/-- `dey`. -/
def dey (cpu : Cpu) : Cpu :=
  let y := wrapping_sub8 cpu.y 1
  update_zero_and_negative_flags { cpu with y := y } y

/-- The `Accumulator` branch of `asl`. -/
def asl_accumulator (cpu : Cpu) : Cpu :=
  let carry_flag_value := (cpu.a &&& 0x80) >>> 7
  let cpu1 := { cpu with a := shl1_u8 cpu.a }
  let cpu2 := update_carry_flag cpu1 carry_flag_value
  update_zero_and_negative_flags cpu2 cpu2.a

/-- `asl`. -/
def asl (cpu : Cpu) (mode : AddressingMode) : Except Panic Cpu :=
  if mode = .Accumulator then .ok (asl_accumulator cpu)
  else do
    let addr ← get_address cpu mode
    let value ← mem_read cpu addr
    let carry_flag_value := (value &&& 0x80) >>> 7
    let result := shl1_u8 value
    let cpu ← mem_write cpu addr result
    let cpu := update_carry_flag cpu carry_flag_value
    .ok (update_zero_and_negative_flags cpu result)

/-- The `Accumulator` branch of `lsr`. -/
def lsr_accumulator (cpu : Cpu) : Cpu :=
  let carry_flag_value := cpu.a &&& 0x01
  let cpu1 := { cpu with a := cpu.a >>> 1 }
  let cpu2 := update_carry_flag cpu1 carry_flag_value
  update_zero_and_negative_flags cpu2 cpu2.a

/-- `lsr`. -/
def lsr (cpu : Cpu) (mode : AddressingMode) : Except Panic Cpu :=
  if mode = .Accumulator then .ok (lsr_accumulator cpu)
  else do
    let addr ← get_address cpu mode
    let value ← mem_read cpu addr
    let carry_flag_value := value &&& 0x01
    let result := value >>> 1
    let cpu ← mem_write cpu addr result
    let cpu := update_carry_flag cpu carry_flag_value
    .ok (update_zero_and_negative_flags cpu result)

/-- The `Accumulator` branch of `rol`: the carry-in is read before the
carry-out is written. -/
def rol_accumulator (cpu : Cpu) : Cpu :=
  let carry_flag_initial := get_carry_flag cpu
  let carry_flag_value := (cpu.a &&& 0x80) >>> 7
  let cpu1 := { cpu with a := shl1_u8 cpu.a ||| carry_flag_initial }
  let cpu2 := update_carry_flag cpu1 carry_flag_value
  update_zero_and_negative_flags cpu2 cpu2.a

/-- `rol`. -/
def rol (cpu : Cpu) (mode : AddressingMode) : Except Panic Cpu :=
  if mode = .Accumulator then .ok (rol_accumulator cpu)
  else do
    let addr ← get_address cpu mode
    let value ← mem_read cpu addr
    let carry_flag_initial := get_carry_flag cpu
    let carry_flag_value := (value &&& 0x80) >>> 7
    let result := shl1_u8 value ||| carry_flag_initial
    let cpu ← mem_write cpu addr result
    let cpu := update_carry_flag cpu carry_flag_value
    .ok (update_zero_and_negative_flags cpu result)

/-- The `Accumulator` branch of `ror`. -/
def ror_accumulator (cpu : Cpu) : Cpu :=
  let carry_flag_initial := get_carry_flag cpu <<< 7
  let carry_flag_value := cpu.a &&& 1
  let cpu1 := { cpu with a := (cpu.a >>> 1) ||| carry_flag_initial }
  let cpu2 := update_carry_flag cpu1 carry_flag_value
  update_zero_and_negative_flags cpu2 cpu2.a

/-- `ror`. -/
def ror (cpu : Cpu) (mode : AddressingMode) : Except Panic Cpu :=
  if mode = .Accumulator then .ok (ror_accumulator cpu)
  else do
    let addr ← get_address cpu mode
    let value ← mem_read cpu addr
    let carry_flag_initial := get_carry_flag cpu <<< 7
    let carry_flag_value := value &&& 1
    let result := (value >>> 1) ||| carry_flag_initial
    let cpu ← mem_write cpu addr result
    let cpu := update_carry_flag cpu carry_flag_value
    .ok (update_zero_and_negative_flags cpu result)

/-- `and`. -/
def and (cpu : Cpu) (mode : AddressingMode) : Except Panic Cpu := do
  let addr ← get_address cpu mode
  let value ← mem_read cpu addr
  let a := cpu.a &&& value
  .ok (update_zero_and_negative_flags { cpu with a := a } a)

/-- `ora`. -/
def ora (cpu : Cpu) (mode : AddressingMode) : Except Panic Cpu := do
  let addr ← get_address cpu mode
  let value ← mem_read cpu addr
  let a := cpu.a ||| value
  .ok (update_zero_and_negative_flags { cpu with a := a } a)

/-- The dispatch `match` of `run`, for opcodes other than the halt
opcode `0x00`, transcribed arm by arm.  The eight EOR opcodes have no
arm in the source and therefore fall through to the catch-all
`panic!`. -/
def exec_instruction (cpu : Cpu) (opcode : Nat) (mode : AddressingMode) :
    Except Panic Cpu :=
  match opcode with
  -- Access
  | 0xA9 | 0xA5 | 0xB5 | 0xAD | 0xBD | 0xB9 | 0xA1 | 0xB1 => lda cpu mode
  | 0x85 | 0x95 | 0x8D | 0x9D | 0x99 | 0x81 | 0x91 => sta cpu mode
  | 0xA2 | 0xA6 | 0xB6 | 0xAE | 0xBE => ldx cpu mode
  | 0x86 | 0x96 | 0x8E => stx cpu mode
  | 0xA0 | 0xA4 | 0xB4 | 0xAC | 0xBC => ldy cpu mode
  | 0x84 | 0x94 | 0x8C => sty cpu mode
  -- Transfer
  | 0xAA => .ok (tax cpu)
  | 0x8A => .ok (txa cpu)
  | 0xA8 => .ok (tay cpu)
  | 0x98 => .ok (tya cpu)
  -- Arithmetic
  | 0x69 | 0x65 | 0x75 | 0x6D | 0x7D | 0x79 | 0x61 | 0x71 => adc cpu mode
  | 0xE9 | 0xE5 | 0xF5 | 0xED | 0xFD | 0xF9 | 0xE1 | 0xF1 => sbc cpu mode
  | 0xE6 | 0xF6 | 0xEE | 0xFE => inc cpu mode
  | 0xC6 | 0xD6 | 0xCE | 0xDE => dec cpu mode
  | 0xCA => .ok (dex cpu)
  | 0xE8 => .ok (inx cpu)
  | 0xC8 => .ok (iny cpu)
  | 0x88 => .ok (dey cpu)
  -- Shift
  | 0x0A | 0x06 | 0x16 | 0x0E | 0x1E => asl cpu mode
  | 0x4A | 0x46 | 0x56 | 0x4E | 0x5E => lsr cpu mode
  | 0x2A | 0x26 | 0x36 | 0x2E | 0x3E => rol cpu mode
  | 0x6A | 0x66 | 0x76 | 0x6E | 0x7E => ror cpu mode
  -- Bitwise
  | 0x29 | 0x25 | 0x35 | 0x2D | 0x3D | 0x39 | 0x21 | 0x31 => and cpu mode
  | 0x09 | 0x05 | 0x15 | 0x0D | 0x1D | 0x19 | 0x01 | 0x11 => ora cpu mode
  -- Catch-all (also reached by the EOR opcodes)
  | _ => .error (.unrecognisedOpcode opcode)

/-- Result of one iteration of the `run` loop. -/
inductive StepResult
  | next (cpu : Cpu)
  | halted (cpu : Cpu)
  | panicked (p : Panic)

/-- One iteration of the `run` loop: fetch the opcode at PC (array
indexing can panic), increment PC, look the opcode up in
`INSTRUCTION_MAP` (`unwrap` panics when absent), dispatch, then advance
PC by `bytes - 1`.  The `0x00` arm returns from `run` before that
advance. -/
def step (cpu0 : Cpu) : StepResult :=
  match mem_read cpu0 cpu0.pc with
  | .error p => .panicked p
  | .ok opcode =>
    let cpu := { cpu0 with pc := cpu0.pc + 1 }
    match instructionMapGet opcode with
    | none => .panicked .unwrapNone
    | some instruction =>
      if opcode = 0x00 then .halted cpu
      else
        match exec_instruction cpu opcode instruction.addressing_mode with
        | .error p => .panicked p
        | .ok cpu1 =>
          if cpu1.pc + (instruction.bytes - 1) ≥ 0x10000 then
            .panicked .u16AddOverflow
          else .next { cpu1 with pc := cpu1.pc + (instruction.bytes - 1) }

/-- Result of `run`: either the loop returned (on the halt opcode), a
panic occurred, or the given fuel ran out. -/
inductive RunOutcome
  | halted (cpu : Cpu)
  | panicked (p : Panic)
  | outOfFuel (cpu : Cpu)

/-- The `run` loop, with explicit fuel (the Rust loop has no bound; all
theorems below pin down behaviour within the supplied fuel). -/
def run : Nat → Cpu → RunOutcome
  | 0, cpu => .outOfFuel cpu
  | fuel + 1, cpu =>
    match step cpu with
    | .halted c => .halted c
    | .panicked p => .panicked p
    | .next c => run fuel c

/-- `PROGRAM_START_ADDRESS`. -/
def PROGRAM_START_ADDRESS : Nat := 0x8000

/-- `PROGRAM_COUNTER_RESET_ADDRESS`. -/
def PROGRAM_COUNTER_RESET_ADDRESS : Nat := 0xFFFC

/-- `load`: copy the program into memory at `PROGRAM_START_ADDRESS`
(the slice operation panics when the range exceeds the array length),
then write the origin into the reset vector. -/
def load (cpu : Cpu) (program : List Nat) : Except Panic Cpu :=
  if PROGRAM_START_ADDRESS + program.length ≤ MEMORY_LEN then
    let copied : Nat → Nat := fun i =>
      if PROGRAM_START_ADDRESS ≤ i ∧ i < PROGRAM_START_ADDRESS + program.length then
        program.getD (i - PROGRAM_START_ADDRESS) 0
      else cpu.memory i
    let cpu1 := { cpu with memory := copied }
    mem_write_u16 cpu1 PROGRAM_COUNTER_RESET_ADDRESS PROGRAM_START_ADDRESS
  else .error .sliceOutOfBounds

/-- `reset`: zero A/X/Y, OR the pattern `0b00100100` into the status
register (`|=`, not an assignment), then load PC from the reset
vector. -/
def reset (cpu : Cpu) : Except Panic Cpu := do
  let cpu := { cpu with a := 0, x := 0, y := 0,
                        status := cpu.status ||| 0b00100100 }
  let pc ← mem_read_u16 cpu PROGRAM_COUNTER_RESET_ADDRESS
  .ok { cpu with pc := pc }

/-- `load_and_run`, with fuel for `run`. -/
def load_and_run (cpu : Cpu) (program : List Nat) (fuel : Nat) :
    Except Panic RunOutcome := do
  let cpu ← load cpu program
  let cpu ← reset cpu
  .ok (run fuel cpu)

/-! Auxiliary definitions used only by the proofs below. -/

/-- Status-register effect of `update_zero_and_negative_flags`. -/
def update_zn_s (s r : Nat) : Nat :=
  update_negative_flag_s (update_zero_flag_s s r) r

/-- Accumulator/carry projection of one accumulator-mode rotate-left. -/
def rol_pair (p : Nat × Nat) : Nat × Nat :=
  (shl1_u8 p.1 ||| p.2, (p.1 &&& 0x80) >>> 7)

/-- CPU state used to exercise the rotate-left counterexample: the
accumulator value `0x13` of the repository's own rotate test, carry
clear. -/
def rolTestCpu : Cpu :=
  { a := 0x13, x := 0, y := 0, status := 0b00100100, sp := 0, pc := 0,
    memory := fun _ => 0 }

/-- CPU state with the Zero and Negative flags set before a reset. -/
def resetTestCpu : Cpu :=
  { a := 7, x := 1, y := 2, status := 0b10000010, sp := 0, pc := 0,
    memory := fun _ => 0 }

/-- CPU state whose PC sits at the top address `0xFFFF`. -/
def topPcCpu : Cpu :=
  { a := 0, x := 0, y := 0, status := 0b00100100, sp := 0, pc := 0xFFFF,
    memory := fun _ => 0 }

/-- CPU state with the two undefined status bits 4 and 5 set. -/
def unusedBitsCpu : Cpu :=
  { a := 0, x := 0, y := 0, status := 0b00110000, sp := 0, pc := 0,
    memory := fun _ => 0 }

/-- CPU state about to fetch the halt opcode `0x00` at `pc = 0x8000`
with nonzero registers (to observe the frame condition). -/
def haltTestCpu : Cpu :=
  { a := 3, x := 4, y := 5, status := 0b10100101, sp := 0, pc := 0x8000,
    memory := fun i => if i = 0x9000 then 0x77 else 0 }

/-- CPU state whose memory is filled with the byte `0x02`, an opcode
absent from the instruction table. -/
def unknownOpcodeCpu : Cpu :=
  { a := 0, x := 0, y := 0, status := 0b00100100, sp := 0, pc := 0,
    memory := fun _ => 0x02 }

/-- CPU state exercising the arithmetic semantics: A = 0x50, carry set,
operand byte 0x50 at PC. -/
def adcTestCpu : Cpu :=
  { a := 0x50, x := 0, y := 0, status := 0b00100101, sp := 0, pc := 0x8000,
    memory := fun _ => 0x50 }

/-- Memory contents produced by `load` on a freshly constructed CPU:
the program image at 0x8000 and the little-endian reset vector
0x8000 at 0xFFFC/0xFFFD, everything else zero. -/
def loadedMemory (program : List Nat) : Nat → Nat := fun i =>
  if i = 0xFFFD then 0x80
  else if i = 0xFFFC then 0
  else if 0x8000 ≤ i ∧ i < 0x8000 + program.length then
    program.getD (i - 0x8000) 0
  else 0

/-! Helper lemmas. -/

/-- The opcode column of the table has no duplicates, so modelling the
`HashMap` built from `CPU_INSTRUCTIONS` by `List.find?` is faithful. -/
theorem cpu_instructions_opcodes_nodup :
    (CPU_INSTRUCTIONS.map (fun i => i.opcode)).Nodup := by decide

/-- Mask identities for the set-Zero-then-clear-Negative outcome of the
zero/negative update, checked over the 256 status bytes. -/
theorem zn_set_branch : ∀ s < 256,
    ((((s ||| 0x02) &&& flag_complement 0x80) &&& 0x02) >>> 1 = 1) ∧
    ((((s ||| 0x02) &&& flag_complement 0x80) &&& 0x80) >>> 7 = 0) ∧
    (((s ||| 0x02) &&& flag_complement 0x80) &&& 0x01 = s &&& 0x01) ∧
    (((s ||| 0x02) &&& flag_complement 0x80) &&& 0x04 = s &&& 0x04) ∧
    (((s ||| 0x02) &&& flag_complement 0x80) &&& 0x08 = s &&& 0x08) ∧
    (((s ||| 0x02) &&& flag_complement 0x80) &&& 0x40 = s &&& 0x40) ∧
    (((s ||| 0x02) &&& flag_complement 0x80) &&& 0x30 = 0) ∧
    ((s ||| 0x02) &&& flag_complement 0x80 < 256) := by decide

/-- Mask identities for the clear-Zero-then-clear-Negative outcome. -/
theorem zn_clear_branch : ∀ s < 256,
    ((((s &&& flag_complement 0x02) &&& flag_complement 0x80) &&& 0x02) >>> 1
      = 0) ∧
    ((((s &&& flag_complement 0x02) &&& flag_complement 0x80) &&& 0x80) >>> 7
      = 0) ∧
    (((s &&& flag_complement 0x02) &&& flag_complement 0x80) &&& 0x01
      = s &&& 0x01) ∧
    (((s &&& flag_complement 0x02) &&& flag_complement 0x80) &&& 0x04
      = s &&& 0x04) ∧
    (((s &&& flag_complement 0x02) &&& flag_complement 0x80) &&& 0x08
      = s &&& 0x08) ∧
    (((s &&& flag_complement 0x02) &&& flag_complement 0x80) &&& 0x40
      = s &&& 0x40) ∧
    (((s &&& flag_complement 0x02) &&& flag_complement 0x80) &&& 0x30 = 0) ∧
    ((s &&& flag_complement 0x02) &&& flag_complement 0x80 < 256) := by decide

/-- Mask identities for the clear-Zero-then-set-Negative outcome. -/
theorem zn_neg_branch : ∀ s < 256,
    ((((s &&& flag_complement 0x02) ||| 0x80) &&& 0x02) >>> 1 = 0) ∧
    ((((s &&& flag_complement 0x02) ||| 0x80) &&& 0x80) >>> 7 = 1) ∧
    (((s &&& flag_complement 0x02) ||| 0x80) &&& 0x01 = s &&& 0x01) ∧
    (((s &&& flag_complement 0x02) ||| 0x80) &&& 0x04 = s &&& 0x04) ∧
    (((s &&& flag_complement 0x02) ||| 0x80) &&& 0x08 = s &&& 0x08) ∧
    (((s &&& flag_complement 0x02) ||| 0x80) &&& 0x40 = s &&& 0x40) ∧
    (((s &&& flag_complement 0x02) ||| 0x80) &&& 0x30 = 0) ∧
    ((s &&& flag_complement 0x02) ||| 0x80 < 256) := by decide

/-- Mask identities for the two outcomes of the carry update. -/
theorem carry_branch : ∀ s < 256,
    ((s ||| 0x01) &&& 0x01 = 1) ∧
    ((s ||| 0x01) &&& 0x40 = s &&& 0x40) ∧
    (s ||| 0x01 < 256) ∧
    ((s &&& flag_complement 0x01) &&& 0x01 = 0) ∧
    ((s &&& flag_complement 0x01) &&& 0x40 = s &&& 0x40) ∧
    (s &&& flag_complement 0x01 < 256) := by decide

/-- Mask identities for the two outcomes of the overflow update. -/
theorem overflow_branch : ∀ s < 256,
    (((s ||| 0x40) &&& 0x40) >>> 6 = 1) ∧
    ((s ||| 0x40) &&& 0x01 = s &&& 0x01) ∧
    (s ||| 0x40 < 256) ∧
    (((s &&& flag_complement 0x40) &&& 0x40) >>> 6 = 0) ∧
    ((s &&& flag_complement 0x40) &&& 0x01 = s &&& 0x01) ∧
    (s &&& flag_complement 0x40 < 256) := by decide

/-- Behaviour of `update_zero_and_negative_flags` on the status byte:
Zero and Negative are recomputed from the result byte; the Carry,
InterruptDisable, Decimal and Overflow bits are preserved; the two
undefined bits 4 and 5 are always cleared (a consequence of `bitflags`
complementation being truncated to the declared flags). -/
theorem update_zn_s_facts (s r : Nat) (hs : s < 256) :
    ((update_zn_s s r &&& 0x02) >>> 1 = if r = 0 then 1 else 0) ∧
    ((update_zn_s s r &&& 0x80) >>> 7 = if r &&& 0x80 = 0 then 0 else 1) ∧
    (update_zn_s s r &&& 0x01 = s &&& 0x01) ∧
    (update_zn_s s r &&& 0x04 = s &&& 0x04) ∧
    (update_zn_s s r &&& 0x08 = s &&& 0x08) ∧
    (update_zn_s s r &&& 0x40 = s &&& 0x40) ∧
    (update_zn_s s r &&& 0x30 = 0) ∧
    update_zn_s s r < 256 := by
  by_cases h0 : r = 0
  · subst h0
    have e : update_zn_s s 0 = (s ||| 0x02) &&& flag_complement 0x80 := by
      simp [update_zn_s, update_zero_flag_s, update_negative_flag_s]
    rw [e]
    simpa using zn_set_branch s hs
  · by_cases h7 : r &&& 0x80 = 0
    · have e : update_zn_s s r =
          (s &&& flag_complement 0x02) &&& flag_complement 0x80 := by
        simp [update_zn_s, update_zero_flag_s, update_negative_flag_s, h0, h7]
      rw [e]
      simp only [if_neg h0, h7, if_pos rfl]
      exact zn_clear_branch s hs
    · have e : update_zn_s s r =
          (s &&& flag_complement 0x02) ||| 0x80 := by
        simp [update_zn_s, update_zero_flag_s, update_negative_flag_s, h0, h7]
      rw [e]
      simp only [if_neg h0, if_neg h7]
      exact zn_neg_branch s hs

/-- Behaviour of `update_carry_flag` on the status byte. -/
theorem update_carry_s_facts (s v : Nat) (hs : s < 256) :
    (update_carry_flag_s s v &&& 0x01 = if v = 0 then 0 else 1) ∧
    (update_carry_flag_s s v &&& 0x40 = s &&& 0x40) ∧
    update_carry_flag_s s v < 256 := by
  by_cases h : v = 0
  · have e : update_carry_flag_s s v = s &&& flag_complement 0x01 := by
      simp [update_carry_flag_s, h]
    rw [e]
    simp only [h, if_pos rfl]
    have hb := carry_branch s hs
    exact ⟨hb.2.2.2.1, hb.2.2.2.2.1, hb.2.2.2.2.2⟩
  · have e : update_carry_flag_s s v = s ||| 0x01 := by
      simp [update_carry_flag_s, h]
    rw [e]
    simp only [if_neg h]
    have hb := carry_branch s hs
    exact ⟨hb.1, hb.2.1, hb.2.2.1⟩

/-- Behaviour of `update_overflow_flag` on the status byte. -/
theorem update_overflow_s_facts (s v : Nat) (hs : s < 256) :
    ((update_overflow_flag_s s v &&& 0x40) >>> 6 = if v = 0 then 0 else 1) ∧
    (update_overflow_flag_s s v &&& 0x01 = s &&& 0x01) ∧
    update_overflow_flag_s s v < 256 := by
  by_cases h : v = 0
  · have e : update_overflow_flag_s s v = s &&& flag_complement 0x40 := by
      simp [update_overflow_flag_s, h]
    rw [e]
    simp only [h, if_pos rfl]
    have hb := overflow_branch s hs
    exact ⟨hb.2.2.2.1, hb.2.2.2.2.1, hb.2.2.2.2.2⟩
  · have e : update_overflow_flag_s s v = s ||| 0x40 := by
      simp [update_overflow_flag_s, h]
    rw [e]
    simp only [if_neg h]
    have hb := overflow_branch s hs
    exact ⟨hb.1, hb.2.1, hb.2.2.1⟩

theorem if_zero_one_eq_self (v : Nat) (h : v < 2) :
    (if v = 0 then 0 else 1) = v := by
  interval_cases v <;> simp

theorem high_bit_shift_lt (a : Nat) (ha : a < 256) :
    (a &&& 0x80) >>> 7 < 2 := by
  exact (by decide : ∀ a < 256, (a &&& 0x80) >>> 7 < 2) a ha

theorem testBit7_iff (r : Nat) (hr : r < 256) :
    Nat.testBit r 7 ↔ r &&& 0x80 ≠ 0 := by
  exact (by decide : ∀ r < 256, (Nat.testBit r 7 ↔ r &&& 0x80 ≠ 0)) r hr

theorem not_u8_eq (m : Nat) (hm : m < 256) :
    not_u8 m = 255 - m ∧ not_u8 m < 256 := by
  exact (by decide : ∀ m < 256, not_u8 m = 255 - m ∧ not_u8 m < 256) m hm

theorem carry_flag_lt (cpu : Cpu) : get_carry_flag cpu < 2 :=
  Nat.lt_of_le_of_lt Nat.and_le_right (by norm_num)

theorem panic_bind_ok {α β : Type} (a : α) (f : α → Except Panic β) :
    (Except.ok a >>= f) = f a := rfl

/-- Flag extraction through the overflow/carry/zero-negative update
chain performed by `add_to_accumulator`. -/
theorem arith_chain_facts (s ov cv r : Nat) (hs : s < 256) :
    (update_zn_s (update_carry_flag_s (update_overflow_flag_s s ov) cv) r
        &&& 0x01 = if cv = 0 then 0 else 1) ∧
    ((update_zn_s (update_carry_flag_s (update_overflow_flag_s s ov) cv) r
        &&& 0x40) >>> 6 = if ov = 0 then 0 else 1) ∧
    ((update_zn_s (update_carry_flag_s (update_overflow_flag_s s ov) cv) r
        &&& 0x02) >>> 1 = if r = 0 then 1 else 0) ∧
    ((update_zn_s (update_carry_flag_s (update_overflow_flag_s s ov) cv) r
        &&& 0x80) >>> 7 = if r &&& 0x80 = 0 then 0 else 1) ∧
    update_zn_s (update_carry_flag_s (update_overflow_flag_s s ov) cv) r
      < 256 := by
  have h1 := update_overflow_s_facts s ov hs
  have h2 := update_carry_s_facts (update_overflow_flag_s s ov) cv h1.2.2
  have h3 := update_zn_s_facts
    (update_carry_flag_s (update_overflow_flag_s s ov) cv) r h2.2.2
  refine ⟨?_, ?_, h3.1, h3.2.1, h3.2.2.2.2.2.2.2⟩
  · rw [h3.2.2.1, h2.1]
  · rw [h3.2.2.2.2.2.1, h2.2.1, h1.1]

/-- Full specification of `add_to_accumulator`: the new accumulator is
the 8-bit wraparound sum of the accumulator, the operand and the
carry-in; Carry records unsigned overflow of that sum; Overflow is the
two's-complement test `(result ^ a) & (result ^ operand) & 0x80 != 0`;
Zero and Negative come from the final accumulator. -/
theorem add_to_accumulator_spec (cpu : Cpu) (v : Nat) (ha : cpu.a < 256)
    (hs : cpu.status < 256) (hv : v < 256) :
    (add_to_accumulator cpu v).a =
      (cpu.a + v + get_carry_flag cpu) % 256 ∧
    (get_carry_flag (add_to_accumulator cpu v) = 1 ↔
      256 ≤ cpu.a + v + get_carry_flag cpu) ∧
    (get_overflow_flag (add_to_accumulator cpu v) = 1 ↔
      ((add_to_accumulator cpu v).a ^^^ cpu.a) &&&
        ((add_to_accumulator cpu v).a ^^^ v) &&& 0x80 ≠ 0) ∧
    (get_zero_flag (add_to_accumulator cpu v) = 1 ↔
      (add_to_accumulator cpu v).a = 0) ∧
    (get_negative_flag (add_to_accumulator cpu v) = 1 ↔
      Nat.testBit (add_to_accumulator cpu v).a 7) := by
  set R := ((cpu.a + v) % 256 + get_carry_flag cpu) % 256 with hR
  set OV := (R ^^^ cpu.a) &&& (R ^^^ v) &&& 0x80 with hOV
  set CV := (if 256 ≤ cpu.a + v ∨ 256 ≤ (cpu.a + v) % 256 + get_carry_flag cpu
    then (1 : Nat) else 0) with hCV
  have hRlt : R < 256 := by rw [hR]; exact Nat.mod_lt _ (by norm_num)
  have e_a : (add_to_accumulator cpu v).a = R := rfl
  have e_s : (add_to_accumulator cpu v).status =
      update_zn_s (update_carry_flag_s (update_overflow_flag_s cpu.status OV)
        CV) R := rfl
  have hchain := arith_chain_facts cpu.status OV CV R hs
  have e1 : get_carry_flag (add_to_accumulator cpu v) =
      update_zn_s (update_carry_flag_s (update_overflow_flag_s cpu.status OV)
        CV) R &&& 0x01 := by
    simp only [get_carry_flag]; rw [e_s]
  have e2 : get_overflow_flag (add_to_accumulator cpu v) =
      (update_zn_s (update_carry_flag_s (update_overflow_flag_s cpu.status OV)
        CV) R &&& 0x40) >>> 6 := by
    simp only [get_overflow_flag]; rw [e_s]
  have e3 : get_zero_flag (add_to_accumulator cpu v) =
      (update_zn_s (update_carry_flag_s (update_overflow_flag_s cpu.status OV)
        CV) R &&& 0x02) >>> 1 := by
    simp only [get_zero_flag]; rw [e_s]
  have e4 : get_negative_flag (add_to_accumulator cpu v) =
      (update_zn_s (update_carry_flag_s (update_overflow_flag_s cpu.status OV)
        CV) R &&& 0x80) >>> 7 := by
    simp only [get_negative_flag]; rw [e_s]
  refine ⟨?_, ?_, ?_, ?_, ?_⟩
  · rw [e_a, hR]; omega
  · rw [e1, hchain.1]
    by_cases hp : 256 ≤ cpu.a + v ∨
        256 ≤ (cpu.a + v) % 256 + get_carry_flag cpu
    · have h1 : CV = 1 := by rw [hCV]; exact if_pos hp
      rw [h1]; simp; omega
    · have h0 : CV = 0 := by rw [hCV]; exact if_neg hp
      rw [h0]; simp; omega
  · rw [e2, hchain.2.1, e_a, ← hOV]
    by_cases ho : OV = 0 <;> simp [ho]
  · rw [e3, hchain.2.2.1, e_a]
    by_cases h0 : R = 0 <;> simp [h0]
  · rw [e4, hchain.2.2.2.1, e_a, testBit7_iff R hRlt]
    by_cases h7 : R &&& 0x80 = 0 <;> simp [h7]

theorem or_bit_lt (p c : Nat) (hp : p < 256) (hc : c < 2) : p ||| c < 256 :=
  (by decide : ∀ p < 256, ∀ c < 2, p ||| c < 256) p hp c hc

/-- One accumulator-mode rotate-left, projected to the
(accumulator, carry-flag) pair: the full CPU step follows `rol_pair`,
and the 8-bit/valid-status invariants are preserved. -/
theorem rol_accumulator_proj (cpu : Cpu) (ha : cpu.a < 256)
    (hs : cpu.status < 256) :
    (rol_accumulator cpu).a = (rol_pair (cpu.a, get_carry_flag cpu)).1 ∧
    get_carry_flag (rol_accumulator cpu) =
      (rol_pair (cpu.a, get_carry_flag cpu)).2 ∧
    (rol_accumulator cpu).a < 256 ∧ (rol_accumulator cpu).status < 256 := by
  have hcv : (cpu.a &&& 0x80) >>> 7 < 2 := high_bit_shift_lt cpu.a ha
  have hcarry := update_carry_s_facts cpu.status ((cpu.a &&& 0x80) >>> 7) hs
  have hzn := update_zn_s_facts
    (update_carry_flag_s cpu.status ((cpu.a &&& 0x80) >>> 7))
    (shl1_u8 cpu.a ||| get_carry_flag cpu) hcarry.2.2
  have ha1 : shl1_u8 cpu.a ||| get_carry_flag cpu < 256 :=
    or_bit_lt _ _ (Nat.mod_lt _ (by norm_num)) (carry_flag_lt cpu)
  refine ⟨rfl, ?_, ha1, hzn.2.2.2.2.2.2.2⟩
  show (update_zn_s (update_carry_flag_s cpu.status ((cpu.a &&& 0x80) >>> 7))
    (shl1_u8 cpu.a ||| get_carry_flag cpu)) &&& 0x01 = (cpu.a &&& 0x80) >>> 7
  rw [hzn.2.2.1, hcarry.1, if_zero_one_eq_self _ hcv]

/-- Iterating the accumulator-mode rotate-left follows the iterated
pair dynamics. -/
theorem rol_accumulator_iter (n : Nat) : ∀ cpu : Cpu, cpu.a < 256 →
    cpu.status < 256 →
    ((rol_accumulator^[n] cpu).a,
      get_carry_flag (rol_accumulator^[n] cpu)) =
        rol_pair^[n] (cpu.a, get_carry_flag cpu) ∧
    (rol_accumulator^[n] cpu).a < 256 ∧
    (rol_accumulator^[n] cpu).status < 256 := by
  induction n with
  | zero => intro cpu ha hs; exact ⟨rfl, ha, hs⟩
  | succ n ih =>
    intro cpu ha hs
    have hstep := rol_accumulator_proj cpu ha hs
    have hpair : ((rol_accumulator cpu).a,
        get_carry_flag (rol_accumulator cpu)) =
          rol_pair (cpu.a, get_carry_flag cpu) := by
      rw [hstep.1, hstep.2.1]
    have hrec := ih (rol_accumulator cpu) hstep.2.2.1 hstep.2.2.2
    rw [hpair] at hrec
    rw [Function.iterate_succ_apply, Function.iterate_succ_apply]
    exact hrec

/-- Nine pair-rotations are the identity on in-range pairs (one full
cycle of the 9-bit rotate through carry). -/
theorem rol_pair_nine : ∀ a < 256, ∀ c < 2, rol_pair^[9] (a, c) = (a, c) := by
  decide

/-! Claim theorems. -/

/-- C1.  The eight EOR opcodes (0x49, 0x45, 0x55, 0x4D, 0x5D, 0x59,
0x41, 0x51) are all present in the instruction table, yet fetching
0x49 makes the execution loop terminate with precisely the
unrecognized-opcode panic: the dispatch `match` in `run` has no arm for
the EOR family, so these table entries fall into the catch-all
`panic!` arm.  This contradicts the claim (and §8 of the spec); the
table and the dispatcher are internally inconsistent, so the claim is
recorded as a code bug. -/
theorem eor_in_table_but_dispatch_panics :
    instructionMapGet 0x49 = some ⟨0x49, "EOR", 2, 2, .Immediate⟩ ∧
    (instructionMapGet 0x45).isSome = true ∧
    (instructionMapGet 0x55).isSome = true ∧
    (instructionMapGet 0x4D).isSome = true ∧
    (instructionMapGet 0x5D).isSome = true ∧
    (instructionMapGet 0x59).isSome = true ∧
    (instructionMapGet 0x41).isSome = true ∧
    (instructionMapGet 0x51).isSome = true ∧
    load_and_run Cpu.new [0x49, 0x01, 0x00] 1 =
      .ok (.panicked (.unrecognisedOpcode 0x49)) :=
  ⟨rfl, rfl, rfl, rfl, rfl, rfl, rfl, rfl, rfl⟩

/-- C2 counterexample.  Fetching the byte 0x02, which has no entry in
the opcode table, terminates execution with the *bare*
`Option::unwrap` panic from `INSTRUCTION_MAP.get(&opcode).unwrap()`,
not with a failure reporting the offending byte and its address: the
descriptive `unrecognisedOpcode` panic (which would carry the byte,
though not the PC) is unreachable for bytes absent from the table. -/
theorem unknown_opcode_bare_unwrap_counterexample :
    load_and_run Cpu.new [0x02, 0x00] 1 = .ok (.panicked .unwrapNone) ∧
    Panic.unwrapNone ≠ Panic.unrecognisedOpcode 0x02 :=
  ⟨rfl, by decide⟩

/-- C2 (amended).  For every fetched byte with no entry in the opcode
table, the execution loop terminates immediately — on that very
iteration — with the unwrap panic; the byte is never silently
ignored.  The failure carries neither the offending byte nor the PC. -/
theorem unknown_opcode_unwrap_panic (cpu : Cpu) (fuel : Nat)
    (hpc : cpu.pc < 0xFFFF)
    (habsent : instructionMapGet (cpu.memory cpu.pc) = none) :
    run (fuel + 1) cpu = .panicked .unwrapNone := by
  have hread : mem_read cpu cpu.pc = .ok (cpu.memory cpu.pc) := by
    simp [mem_read, MEMORY_LEN, hpc]
  simp [run, step, hread, habsent]

/-- C2 witness. -/
theorem unknown_opcode_unwrap_panic_witness :
    run 1 unknownOpcodeCpu = .panicked .unwrapNone :=
  unknown_opcode_unwrap_panic unknownOpcodeCpu 0 (by decide) (by rfl)

/-- C3.  The claim says all 65536 16-bit addresses are readable and
writable without any possibility of out-of-range access "by
construction of the memory array" — but the array is declared as
`[u8; 0xFFFF]`, i.e. with 65535 elements, so address 0xFFFF is out of
bounds and reading or writing it panics.  Addresses up to 0xFFFE work.
The spec's 65536-byte space is clearly the intent (code bug). -/
theorem mem_read_out_of_bounds_at_top_address :
    MEMORY_LEN = 65535 ∧
    mem_read Cpu.new 0xFFFE = .ok 0 ∧
    mem_read Cpu.new 0xFFFF = .error (.indexOutOfBounds 0xFFFF) ∧
    mem_write Cpu.new 0xFFFF 0x55 = .error (.indexOutOfBounds 0xFFFF) :=
  ⟨rfl, rfl, rfl, rfl⟩

/-- C4 counterexample.  `reset` ORs the default pattern into the status
register (`self.status |= ...`) instead of assigning it, so a Zero or
Negative flag set before the reset survives it: from status
`0b10000010` reset produces `0b10100110`, not `0b00100100`, with Zero
and Negative still set. -/
theorem reset_does_not_clear_flags_counterexample :
    resetTestCpu.status = 0b10000010 ∧
    Except.map Cpu.status (reset resetTestCpu) = .ok 0b10100110 ∧
    Except.map get_zero_flag (reset resetTestCpu) = .ok 1 ∧
    Except.map get_negative_flag (reset resetTestCpu) = .ok 1 ∧
    (0b10100110 : Nat) ≠ 0b00100100 :=
  ⟨rfl, rfl, rfl, rfl, by decide⟩

/-- C4 (amended).  After `reset`, A, X and Y are zero and the status
register equals the *previous* status ORed with 0b00100100 (setting
InterruptDisable and the unused bit 5, and preserving every flag that
was already set — Zero and Negative are not cleared); PC is loaded
little-endian from the reset vector at 0xFFFC/0xFFFD. -/
theorem reset_ors_default_into_status (cpu : Cpu) :
    reset cpu =
      .ok { cpu with
            a := 0, x := 0, y := 0,
            status := cpu.status ||| 0b00100100,
            pc := (cpu.memory 0xFFFD <<< 8) ||| cpu.memory 0xFFFC } := rfl

/-- C5 counterexample.  Eight accumulator-mode rotate-lefts do *not*
return the accumulator and carry to their original state: rotating
through carry is a 9-bit rotation.  Starting from the repository's own
test value A = 0x13 with carry clear, eight rotations give A = 0x09
with carry set. -/
theorem rol_eight_times_counterexample :
    rolTestCpu.a = 0x13 ∧ get_carry_flag rolTestCpu = 0 ∧
    (rol_accumulator^[8] rolTestCpu).a = 0x09 ∧
    get_carry_flag (rol_accumulator^[8] rolTestCpu) = 1 ∧
    (rol_accumulator^[8] rolTestCpu).a ≠ rolTestCpu.a :=
  ⟨rfl, rfl, rfl, rfl, by decide⟩

/-- C5 (amended).  *Nine* accumulator-mode rotate-lefts return the
accumulator to its original value and the Carry flag to its
pre-rotation state (full-cycle identity of the 9-bit rotate through
carry) — matching the repository's own
`test_0x2a_rol_rotate_to_original_state`, which executes nine `0x2A`
instructions. -/
theorem rol_nine_times_identity (cpu : Cpu) (ha : cpu.a < 256)
    (hs : cpu.status < 256) :
    (rol_accumulator^[9] cpu).a = cpu.a ∧
    get_carry_flag (rol_accumulator^[9] cpu) = get_carry_flag cpu := by
  have h := rol_accumulator_iter 9 cpu ha hs
  have h9 := rol_pair_nine cpu.a ha (get_carry_flag cpu) (carry_flag_lt cpu)
  rw [h9] at h
  exact ⟨congrArg Prod.fst h.1, congrArg Prod.snd h.1⟩

/-- C5 witness. -/
theorem rol_nine_times_identity_witness :
    (rol_accumulator^[9] rolTestCpu).a = rolTestCpu.a ∧
    get_carry_flag (rol_accumulator^[9] rolTestCpu) =
      get_carry_flag rolTestCpu :=
  rol_nine_times_identity rolTestCpu (by decide) (by decide)

/-- C8 counterexample.  `update_zero_and_negative_flags` does not leave
all other status bits unchanged: with status `0b00110000` (the two
undefined bits 4 and 5 set) and result byte 1, the whole status
becomes 0 — the clears performed via the `bitflags` complement
(`!Zero`, `!Negative`) are truncated to the declared flag bits and so
also wipe bits 4 and 5. -/
theorem update_flags_clears_unused_bits_counterexample :
    unusedBitsCpu.status = 0x30 ∧
    (update_zero_and_negative_flags unusedBitsCpu 1).status = 0 ∧
    Nat.testBit (update_zero_and_negative_flags unusedBitsCpu 1).status 4 ≠
      Nat.testBit unusedBitsCpu.status 4 :=
  ⟨rfl, rfl, by decide⟩

/-- C8 (amended).  For every 8-bit value v,
`update_zero_and_negative_flags(v)` sets Zero iff v = 0 and Negative
iff bit 7 of v, independent of the caller; the four other *named* flag
bits (Carry, InterruptDisable, Decimal, Overflow) are left unchanged,
while the two undefined status bits 4 and 5 are always cleared. -/
theorem update_zero_and_negative_flags_spec (cpu : Cpu) (v : Nat)
    (hs : cpu.status < 256) (hv : v < 256) :
    (get_zero_flag (update_zero_and_negative_flags cpu v) = 1 ↔ v = 0) ∧
    (get_negative_flag (update_zero_and_negative_flags cpu v) = 1 ↔
      Nat.testBit v 7) ∧
    ((update_zero_and_negative_flags cpu v).status &&& 0x01 =
      cpu.status &&& 0x01) ∧
    ((update_zero_and_negative_flags cpu v).status &&& 0x04 =
      cpu.status &&& 0x04) ∧
    ((update_zero_and_negative_flags cpu v).status &&& 0x08 =
      cpu.status &&& 0x08) ∧
    ((update_zero_and_negative_flags cpu v).status &&& 0x40 =
      cpu.status &&& 0x40) ∧
    ((update_zero_and_negative_flags cpu v).status &&& 0x30 = 0) := by
  have h := update_zn_s_facts cpu.status v hs
  refine ⟨?_, ?_, h.2.2.1, h.2.2.2.1, h.2.2.2.2.1, h.2.2.2.2.2.1,
    h.2.2.2.2.2.2.1⟩
  · show ((update_zn_s cpu.status v &&& 0x02) >>> 1 = 1) ↔ v = 0
    rw [h.1]
    by_cases h0 : v = 0 <;> simp [h0]
  · show ((update_zn_s cpu.status v &&& 0x80) >>> 7 = 1) ↔ Nat.testBit v 7
    rw [h.2.1, testBit7_iff v hv]
    by_cases h7 : v &&& 0x80 = 0 <;> simp [h7]

/-- C6.  For every accumulator value, operand byte m (fetched at PC in
immediate mode) and incoming carry bit: ADC sets the accumulator to the
8-bit wraparound sum `a + m + carry` and SBC to `a + (255 - m) + carry`
(addition of the one's complement); in both, Carry is set iff the
unsigned sum (carry-in included) overflowed 8 bits, Overflow is set iff
`(result ^ a) & (result ^ operand) & 0x80 != 0` with operand `m`
resp. `255 - m`, and Zero/Negative are taken from the final
accumulator. -/
theorem adc_sbc_immediate_semantics (cpu : Cpu) (ha : cpu.a < 256)
    (hs : cpu.status < 256) (hpc : cpu.pc < 0xFFFF)
    (hm : cpu.memory cpu.pc < 256) :
    ∃ c1 c2,
      adc cpu .Immediate = .ok c1 ∧
      sbc cpu .Immediate = .ok c2 ∧
      c1.a = (cpu.a + cpu.memory cpu.pc + get_carry_flag cpu) % 256 ∧
      (get_carry_flag c1 = 1 ↔
        256 ≤ cpu.a + cpu.memory cpu.pc + get_carry_flag cpu) ∧
      (get_overflow_flag c1 = 1 ↔
        (c1.a ^^^ cpu.a) &&& (c1.a ^^^ cpu.memory cpu.pc) &&& 0x80 ≠ 0) ∧
      (get_zero_flag c1 = 1 ↔ c1.a = 0) ∧
      (get_negative_flag c1 = 1 ↔ Nat.testBit c1.a 7) ∧
      c2.a = (cpu.a + (255 - cpu.memory cpu.pc) + get_carry_flag cpu) % 256 ∧
      (get_carry_flag c2 = 1 ↔
        256 ≤ cpu.a + (255 - cpu.memory cpu.pc) + get_carry_flag cpu) ∧
      (get_overflow_flag c2 = 1 ↔
        (c2.a ^^^ cpu.a) &&& (c2.a ^^^ (255 - cpu.memory cpu.pc)) &&& 0x80
          ≠ 0) ∧
      (get_zero_flag c2 = 1 ↔ c2.a = 0) ∧
      (get_negative_flag c2 = 1 ↔ Nat.testBit c2.a 7) := by
  have hread : mem_read cpu cpu.pc = .ok (cpu.memory cpu.pc) := by
    simp [mem_read, MEMORY_LEN, hpc]
  have hadc : adc cpu .Immediate =
      .ok (add_to_accumulator cpu (cpu.memory cpu.pc)) := by
    simp [adc, get_address, hread, panic_bind_ok]
  have hsbc : sbc cpu .Immediate =
      .ok (add_to_accumulator cpu (not_u8 (cpu.memory cpu.pc))) := by
    simp [sbc, get_address, hread, panic_bind_ok]
  obtain ⟨hnot, hnotlt⟩ := not_u8_eq (cpu.memory cpu.pc) hm
  rw [hnot] at hsbc
  have h1 := add_to_accumulator_spec cpu (cpu.memory cpu.pc) ha hs hm
  have h2 := add_to_accumulator_spec cpu (255 - cpu.memory cpu.pc) ha hs
    (by omega)
  exact ⟨_, _, hadc, hsbc, h1.1, h1.2.1, h1.2.2.1, h1.2.2.2.1, h1.2.2.2.2,
    h2.1, h2.2.1, h2.2.2.1, h2.2.2.2.1, h2.2.2.2.2⟩

/-- C6 witness. -/
theorem adc_sbc_immediate_semantics_witness :
    ∃ c1 c2,
      adc adcTestCpu .Immediate = .ok c1 ∧
      sbc adcTestCpu .Immediate = .ok c2 ∧
      c1.a = (adcTestCpu.a + adcTestCpu.memory adcTestCpu.pc +
        get_carry_flag adcTestCpu) % 256 ∧
      (get_carry_flag c1 = 1 ↔
        256 ≤ adcTestCpu.a + adcTestCpu.memory adcTestCpu.pc +
          get_carry_flag adcTestCpu) ∧
      (get_overflow_flag c1 = 1 ↔
        (c1.a ^^^ adcTestCpu.a) &&&
          (c1.a ^^^ adcTestCpu.memory adcTestCpu.pc) &&& 0x80 ≠ 0) ∧
      (get_zero_flag c1 = 1 ↔ c1.a = 0) ∧
      (get_negative_flag c1 = 1 ↔ Nat.testBit c1.a 7) ∧
      c2.a = (adcTestCpu.a + (255 - adcTestCpu.memory adcTestCpu.pc) +
        get_carry_flag adcTestCpu) % 256 ∧
      (get_carry_flag c2 = 1 ↔
        256 ≤ adcTestCpu.a + (255 - adcTestCpu.memory adcTestCpu.pc) +
          get_carry_flag adcTestCpu) ∧
      (get_overflow_flag c2 = 1 ↔
        (c2.a ^^^ adcTestCpu.a) &&&
          (c2.a ^^^ (255 - adcTestCpu.memory adcTestCpu.pc)) &&& 0x80 ≠ 0) ∧
      (get_zero_flag c2 = 1 ↔ c2.a = 0) ∧
      (get_negative_flag c2 = 1 ↔ Nat.testBit c2.a 7) :=
  adc_sbc_immediate_semantics adcTestCpu (by decide) (by decide) (by decide)
    (by decide)

/-- C7 counterexample.  `get_address` can panic for a mode with a
defined resolution path: in `Relative` mode with `PC = 0xFFFF` the
operand fetch `mem_read(pc)` indexes past the end of the
0xFFFF-element memory array.  (Even with an in-bounds fetch, the
`Relative` resolution `self.pc + offset` is a plain, non-wrapping
`u16` addition.) -/
theorem get_address_relative_panics_at_top_pc :
    get_address topPcCpu .Relative = .error (.indexOutOfBounds 0xFFFF) ∧
    get_address topPcCpu .ZeroPage = .error (.indexOutOfBounds 0xFFFF) :=
  ⟨rfl, rfl⟩

/-- C7 (amended).  For every addressing mode with a defined resolution
path (every mode except `Implicit` and `Accumulator`), `get_address`
resolves to an address without panicking *provided* the operand bytes
it reads lie below the array bound `0xFFFF` (`pc + 1 < 0xFFFF` covers
the one- and two-byte operands; the zero-page pointer reads are always
in bounds) and, for `Relative` only, the plain (non-wrapping) `u16`
addition `pc + offset` does not overflow.  The index arithmetic of
`ZeroPageX/Y`, `AbsoluteX/Y` and `IndirectX/Y` wraps modulo the
register width, so it needs no side condition. -/
theorem get_address_no_panic_under_bounds (cpu : Cpu)
    (mode : AddressingMode)
    (hmem : ∀ i, cpu.memory i < 256)
    (hpc : cpu.pc + 1 < 0xFFFF)
    (hrel : mode = .Relative → cpu.pc + cpu.memory cpu.pc < 0x10000)
    (h1 : mode ≠ .Implicit) (h2 : mode ≠ .Accumulator) :
    ∃ a, get_address cpu mode = .ok a := by
  have hpc0 : cpu.pc < 0xFFFF := by omega
  have hread : mem_read cpu cpu.pc = .ok (cpu.memory cpu.pc) := by
    simp [mem_read, MEMORY_LEN, hpc0]
  have hread1 : mem_read cpu (cpu.pc + 1) = .ok (cpu.memory (cpu.pc + 1)) := by
    simp [mem_read, MEMORY_LEN, hpc]
  have hnotover : ¬(cpu.pc + 1 ≥ 0x10000) := by omega
  have hread16 : mem_read_u16 cpu cpu.pc =
      .ok ((cpu.memory (cpu.pc + 1) <<< 8) ||| cpu.memory cpu.pc) := by
    simp [mem_read_u16, hread, hread1, panic_bind_ok, hnotover]
  have hzp : ∀ z : Nat, z < 256 → mem_read cpu z = .ok (cpu.memory z) := by
    intro z hz
    have hzlt : z < MEMORY_LEN := by
      have : MEMORY_LEN = 65535 := rfl
      omega
    simp [mem_read, hzlt]
  cases mode with
  | Implicit => exact absurd rfl h1
  | Accumulator => exact absurd rfl h2
  | Immediate => exact ⟨cpu.pc, rfl⟩
  | ZeroPage => exact ⟨_, hread⟩
  | ZeroPageX =>
    exact ⟨wrapping_add8 (cpu.memory cpu.pc) cpu.x,
      by simp [get_address, hread, panic_bind_ok]⟩
  | ZeroPageY =>
    exact ⟨wrapping_add8 (cpu.memory cpu.pc) cpu.y,
      by simp [get_address, hread, panic_bind_ok]⟩
  | Absolute => exact ⟨_, hread16⟩
  | AbsoluteX =>
    exact ⟨wrapping_add16 ((cpu.memory (cpu.pc + 1) <<< 8) |||
        cpu.memory cpu.pc) cpu.x,
      by simp [get_address, hread16, panic_bind_ok]⟩
  | AbsoluteY =>
    exact ⟨wrapping_add16 ((cpu.memory (cpu.pc + 1) <<< 8) |||
        cpu.memory cpu.pc) cpu.y,
      by simp [get_address, hread16, panic_bind_ok]⟩
  | Relative =>
    have hov : ¬(cpu.pc + cpu.memory cpu.pc ≥ 0x10000) := by
      have := hrel rfl
      omega
    exact ⟨cpu.pc + cpu.memory cpu.pc,
      by simp [get_address, hread, panic_bind_ok, hov]⟩
  | Indirect => exact ⟨_, hread16⟩
  | IndirectX =>
    have hz1 := hzp (wrapping_add8 (cpu.memory cpu.pc) cpu.x)
      (Nat.mod_lt _ (by norm_num))
    have hz2 := hzp (wrapping_add8 (wrapping_add8 (cpu.memory cpu.pc) cpu.x) 1)
      (Nat.mod_lt _ (by norm_num))
    exact ⟨(cpu.memory (wrapping_add8 (wrapping_add8 (cpu.memory cpu.pc)
          cpu.x) 1) <<< 8) |||
        cpu.memory (wrapping_add8 (cpu.memory cpu.pc) cpu.x),
      by simp [get_address, hread, hz1, hz2, panic_bind_ok]⟩
  | IndirectY =>
    have hz1 := hzp (cpu.memory cpu.pc) (hmem cpu.pc)
    have hz2 := hzp (wrapping_add8 (cpu.memory cpu.pc) 1)
      (Nat.mod_lt _ (by norm_num))
    exact ⟨wrapping_add16 ((cpu.memory (wrapping_add8 (cpu.memory cpu.pc) 1)
          <<< 8) ||| cpu.memory (cpu.memory cpu.pc)) cpu.y,
      by simp [get_address, hread, hz1, hz2, panic_bind_ok]⟩

/-- C7 witness. -/
theorem get_address_no_panic_under_bounds_witness :
    ∃ a, get_address Cpu.new .ZeroPage = .ok a :=
  get_address_no_panic_under_bounds Cpu.new .ZeroPage
    (fun _ => by show (0 : Nat) < 256; decide) (by decide)
    (fun h => by cases h) (fun h => by cases h) (fun h => by cases h)

/-- C9.  For every program fitting below the reset-vector region,
after `Cpu::new()`, `load(program)`, `reset()`: memory from 0x8000 on
holds the program bytes verbatim, 0xFFFC holds 0x00 and 0xFFFD holds
0x80 (the little-endian origin 0x8000), and PC equals 0x8000 — the PC
is read back from the vector the loader wrote, so load and reset are
separable steps. -/
theorem load_then_reset_handshake (prog : List Nat)
    (hlen : prog.length ≤ 0x7FFC) :
    ∃ c c2, load Cpu.new prog = .ok c ∧ reset c = .ok c2 ∧
      (∀ i, i < prog.length → c2.memory (0x8000 + i) = prog.getD i 0) ∧
      c2.memory 0xFFFC = 0x00 ∧ c2.memory 0xFFFD = 0x80 ∧
      c2.pc = 0x8000 := by
  have hcond : PROGRAM_START_ADDRESS + prog.length ≤ MEMORY_LEN := by
    have e1 : PROGRAM_START_ADDRESS = 0x8000 := rfl
    have e2 : MEMORY_LEN = 0xFFFF := rfl
    omega
  have hload : load Cpu.new prog = .ok
      { a := 0, x := 0, y := 0, status := 0b00100100, sp := 0, pc := 0,
        memory := loadedMemory prog } := by
    unfold load
    rw [if_pos hcond]
    exact rfl
  have hreset : ∀ c : Cpu, reset c =
      .ok { c with
            a := 0, x := 0, y := 0,
            status := c.status ||| 0b00100100,
            pc := (c.memory 0xFFFD <<< 8) ||| c.memory 0xFFFC } :=
    fun _ => rfl
  refine ⟨{ a := 0, x := 0, y := 0, status := 0b00100100, sp := 0,
            pc := 0, memory := loadedMemory prog }, _,
          hload,
          hreset { a := 0, x := 0, y := 0, status := 0b00100100, sp := 0,
                   pc := 0, memory := loadedMemory prog },
          ?_, by exact rfl, by exact rfl, ?_⟩
  · intro i hi
    show loadedMemory prog (0x8000 + i) = prog.getD i 0
    unfold loadedMemory
    rw [if_neg (by omega), if_neg (by omega),
      if_pos (⟨by omega, by omega⟩ : 0x8000 ≤ 0x8000 + i ∧
        0x8000 + i < 0x8000 + prog.length)]
    have e : 0x8000 + i - 0x8000 = i := by omega
    rw [e]
  · show (loadedMemory prog 0xFFFD <<< 8) ||| loadedMemory prog 0xFFFC
      = 0x8000
    rw [show loadedMemory prog 0xFFFD = 0x80 from rfl,
      show loadedMemory prog 0xFFFC = 0 from rfl]
    decide

/-- C9 witness. -/
theorem load_then_reset_handshake_witness :
    ∃ c c2, load Cpu.new [0xA9, 0x05, 0x00] = .ok c ∧ reset c = .ok c2 ∧
      (∀ i, i < [0xA9, 0x05, 0x00].length →
        c2.memory (0x8000 + i) = [0xA9, 0x05, 0x00].getD i 0) ∧
      c2.memory 0xFFFC = 0x00 ∧ c2.memory 0xFFFD = 0x80 ∧
      c2.pc = 0x8000 :=
  load_then_reset_handshake [0xA9, 0x05, 0x00] (by decide)

/-- C10.  When the loop fetches the halt opcode 0x00 at address p, run
returns normally with PC = p + 1, and the halt step leaves A, X, Y,
the status register, the stack pointer and all of memory unchanged
from their values at the fetch (the returned state is the fetch-time
state with only PC advanced past the opcode byte). -/
theorem halt_returns_with_pc_incremented (cpu : Cpu) (fuel : Nat)
    (hpc : cpu.pc < 0xFFFF) (hop : cpu.memory cpu.pc = 0x00) :
    run (fuel + 1) cpu = .halted { cpu with pc := cpu.pc + 1 } := by
  have hread : mem_read cpu cpu.pc = .ok 0 := by
    simp [mem_read, MEMORY_LEN, hpc, hop]
  have hmap : instructionMapGet 0 = some ⟨0x00, "BRK", 1, 7, .Implicit⟩ := rfl
  simp [run, step, hread, hmap]

/-- C10 witness. -/
theorem halt_returns_with_pc_incremented_witness :
    run 1 haltTestCpu = .halted { haltTestCpu with pc := haltTestCpu.pc + 1 } :=
  halt_returns_with_pc_incremented haltTestCpu 0 (by decide) (by decide)

/-- C8 witness. -/
theorem update_zero_and_negative_flags_spec_witness :
    (get_zero_flag (update_zero_and_negative_flags Cpu.new 0x80) = 1 ↔
      (0x80 : Nat) = 0) ∧
    (get_negative_flag (update_zero_and_negative_flags Cpu.new 0x80) = 1 ↔
      Nat.testBit 0x80 7) ∧
    ((update_zero_and_negative_flags Cpu.new 0x80).status &&& 0x01 =
      Cpu.new.status &&& 0x01) ∧
    ((update_zero_and_negative_flags Cpu.new 0x80).status &&& 0x04 =
      Cpu.new.status &&& 0x04) ∧
    ((update_zero_and_negative_flags Cpu.new 0x80).status &&& 0x08 =
      Cpu.new.status &&& 0x08) ∧
    ((update_zero_and_negative_flags Cpu.new 0x80).status &&& 0x40 =
      Cpu.new.status &&& 0x40) ∧
    ((update_zero_and_negative_flags Cpu.new 0x80).status &&& 0x30 = 0) :=
  update_zero_and_negative_flags_spec Cpu.new 0x80 (by decide) (by decide)

end Nes
